import Mathlib

set_option autoImplicit false

namespace PyNextbus

/-- Python values that may be either a string or an integer, as in the
annotation str | int used for stop tags in client.py. -/
inductive StrOrInt where
  | str (s : String)
  | int (n : Int)
  deriving DecidableEq

/-- Python str() applied to a str | int value. -/
def StrOrInt.pyStr : StrOrInt → String
  | .str s => s
  | .int n => toString n

/-- ReturnFormat enum from client.py, selecting JSON or XML output. -/
inductive ReturnFormat where
  | json
  | xml
  deriving DecidableEq

/-- RouteStop named tuple from client.py: a route tag paired with a stop tag. -/
structure RouteStop where
  route_tag : String
  stop_tag : StrOrInt
  deriving DecidableEq

/-- The __str__ method of RouteStop, the f-string interpolating route_tag,
a pipe character, and stop_tag. -/
def RouteStop.toStr (rs : RouteStop) : String :=
  rs.route_tag ++ "|" ++ rs.stop_tag.pyStr

/-- Uppercase hexadecimal digit, as produced by the percent encoding in
urllib.parse.quote. -/
def hexDigit (n : Nat) : Char :=
  if n < 10 then Char.ofNat (48 + n) else Char.ofNat (55 + n)

/-- UTF-8 byte sequence of a character, used by urllib.parse.quote, which
percent-encodes each byte of the UTF-8 encoding of a non-safe character. -/
def utf8Bytes (c : Char) : List Nat :=
  let n := c.toNat
  if n < 128 then [n]
  else if n < 2048 then [192 + n / 64, 128 + n % 64]
  else if n < 65536 then [224 + n / 4096, 128 + n / 64 % 64, 128 + n % 64]
  else [240 + n / 262144, 128 + n / 4096 % 64, 128 + n / 64 % 64, 128 + n % 64]

/-- Characters left unquoted by urlencode(params, safe) as called in
_perform_request: the always-safe ASCII letters, digits and underscore, dot,
dash, tilde of urllib.parse.quote, plus the ampersand and equals sign passed
through the safe argument in client.py. -/
def isUrlSafe (c : Char) : Bool :=
  c.isAlphanum || c == '_' || c == '.' || c == '-' || c == '~' || c == '&' || c == '='

/-- Percent encoding of one byte, a percent sign followed by two uppercase
hexadecimal digits. -/
def pctByte (b : Nat) : String :=
  String.mk ['%', hexDigit (b / 16), hexDigit (b % 16)]

/-- Action of urllib.parse.quote_plus on a single character with the safe set
of isUrlSafe: safe characters are kept, a space becomes a plus sign, and any
other character is replaced by the percent encoding of its UTF-8 bytes. -/
def quotePlusChar (c : Char) : String :=
  if isUrlSafe c then String.singleton c
  else if c == ' ' then "+"
  else String.join ((utf8Bytes c).map pctByte)

/-- Concatenation of the quotations of a list of characters. -/
def quoteChars : List Char → String
  | [] => ""
  | c :: cs => quotePlusChar c ++ quoteChars cs

/-- The urllib.parse.quote_plus function restricted to the safe set used by
client.py. -/
def quotePlus (s : String) : String :=
  quoteChars s.data

/-- Python str.join: concatenate a list of strings with a separator between
consecutive elements. -/
def pyJoin (sep : String) : List String → String
  | [] => ""
  | [x] => x
  | x :: y :: ys => (x ++ sep) ++ pyJoin sep (y :: ys)

/-- Concatenation of a list of strings with no separator. -/
def concatAll : List String → String
  | [] => ""
  | [x] => x
  | x :: y :: ys => x ++ concatAll (y :: ys)

/-- The urlencode(params, safe) call of _perform_request in client.py: every
key and value is quoted with quote_plus keeping the safe characters, each pair
is rendered as key=value, and the pairs are joined with ampersands. -/
def urlencode (params : List (String × String)) : String :=
  pyJoin "&" (params.map (fun p => (quotePlus p.1 ++ "=") ++ quotePlus p.2))

/-- Instance attributes of NextBusClient set by __init__ in client.py. -/
structure NextBusClient where
  output_format : ReturnFormat
  agency : Option String
  use_compression : Bool

/-- XML feed base URL constant from client.py. -/
def NEXTBUS_XML_FEED_URL : String := "https://retro.umoiq.com/service/publicXMLFeed"

/-- JSON feed base URL constant from client.py. -/
def NEXTBUS_JSON_FEED_URL : String := "https://retro.umoiq.com/service/publicJSONFeed"

/-- Python truthiness of an optional string: None and the empty string are
falsy, every other string is truthy. -/
def strTruthy : Option String → Bool
  | none => false
  | some s => s != ""

/-- The Python expression a or b on optional strings, as in _get_agency: the
first operand when it is truthy, otherwise the second operand. -/
def pyOrStr (a b : Option String) : Option String :=
  if strTruthy a then a else b

/-- The _get_agency method of NextBusClient in client.py: resolve the agency
as the per-call argument when truthy, else the instance attribute, and raise
ValueError when the resolved value is None. -/
def NextBusClient.getAgencyOf (c : NextBusClient) (agency : Option String) :
    Except String String :=
  match pyOrStr agency c.agency with
  | none => Except.error "\"agency\" is required."
  | some s => Except.ok s

/-- The get_messages method of client.py, returning the query parameters it
hands to _perform_request; an error result means no parameters are built and
no request is issued. The repeated r key is produced by joining the route
tags with a literal ampersand-r-equals separator. -/
def NextBusClient.get_messages (c : NextBusClient) (route_tags : List String)
    (agency : Option String) : Except String (List (String × String)) :=
  (c.getAgencyOf agency).map (fun a =>
    [("command", "messages"), ("r", pyJoin "&r=" route_tags), ("a", a)])

/-- The get_route_list method of client.py, returning the query parameters it
hands to _perform_request. -/
def NextBusClient.get_route_list (c : NextBusClient) (agency : Option String) :
    Except String (List (String × String)) :=
  (c.getAgencyOf agency).map (fun a => [("command", "routeList"), ("a", a)])

/-- The get_route_config method of client.py, returning the query parameters
it hands to _perform_request; the r key is added only when route_tag is not
None. -/
def NextBusClient.get_route_config (c : NextBusClient) (route_tag : Option String)
    (agency : Option String) : Except String (List (String × String)) :=
  (c.getAgencyOf agency).map (fun a =>
    match route_tag with
    | none => [("command", "routeConfig"), ("a", a)]
    | some rt => [("command", "routeConfig"), ("a", a)] ++ [("r", rt)])

/-- The get_predictions method of client.py, returning the query parameters
it hands to _perform_request. In the source the route_tag parameter is a
required positional argument of type str and is always placed in the
parameters under the r key. -/
def NextBusClient.get_predictions (c : NextBusClient) (stop_tag : StrOrInt)
    (route_tag : String) (agency : Option String) :
    Except String (List (String × String)) :=
  (c.getAgencyOf agency).map (fun a =>
    [("command", "predictions"), ("a", a), ("s", stop_tag.pyStr), ("r", route_tag)])

/-- The get_predictions_for_multi_stops method of client.py, returning the
query parameters it hands to _perform_request. The repeated stops key is
produced by joining the str() serializations of the RouteStop pairs with a
literal ampersand-stops-equals separator. -/
def NextBusClient.get_predictions_for_multi_stops (c : NextBusClient)
    (route_stops : List RouteStop) (agency : Option String) :
    Except String (List (String × String)) :=
  (c.getAgencyOf agency).map (fun a =>
    [("command", "predictionsForMultiStops"),
     ("stops", pyJoin "&stops=" (route_stops.map RouteStop.toStr)),
     ("a", a)])

/-- The get_schedule method of client.py, returning the query parameters it
hands to _perform_request. -/
def NextBusClient.get_schedule (c : NextBusClient) (route_tag : String)
    (agency : Option String) : Except String (List (String × String)) :=
  (c.getAgencyOf agency).map (fun a =>
    [("command", "schedule"), ("a", a), ("r", route_tag)])

/-- The get_vehicle_locations method of client.py, returning the query
parameters it hands to _perform_request; the datetime argument is modelled by
its epoch timestamp in milliseconds, which the source computes as
timestamp() * 1000 and places under the t key. -/
def NextBusClient.get_vehicle_locations (c : NextBusClient) (route_tag : String)
    (since_time_ms : Int) (agency : Option String) :
    Except String (List (String × String)) :=
  (c.getAgencyOf agency).map (fun a =>
    [("command", "vehicleLocations"), ("a", a), ("r", route_tag),
     ("t", toString since_time_ms)])

/-- Data carried by a urllib HTTPError raised by the transport. -/
structure HTTPErrorInfo where
  code : Nat
  msg : String
  deriving DecidableEq

/-- Data carried by a json.decoder.JSONDecodeError raised by json.loads. -/
structure JsonDecodeError where
  msg : String
  pos : Nat
  deriving DecidableEq

/-- Outcome of urllib.request.urlopen followed by read in _perform_request:
either the response body or an HTTPError raised by the transport. -/
inductive FetchResult where
  | success (body : String)
  | httpError (e : HTTPErrorInfo)
  deriving DecidableEq

/-- Errors raised by _perform_request in client.py: NextBusHTTPError carries
its message and chains the original HTTPError as its cause, and the distinct
NextBusFormatError carries its message and chains the JSON decode error. -/
inductive NextBusError where
  | httpErr (message : String) (cause : HTTPErrorInfo)
  | formatErr (message : String) (cause : JsonDecodeError)
  deriving DecidableEq

/-- Value returned by _perform_request: the parsed JSON object when the
output format is JSON, or the raw body text when it is XML. The type of
parsed JSON values is a parameter J. -/
inductive PerformOutput (J : Type) where
  | jsonResp (v : J)
  | xmlResp (body : String)

/-- Base URL selection at the top of _perform_request, dispatching on the
output format. -/
def baseUrl : ReturnFormat → String
  | .json => NEXTBUS_JSON_FEED_URL
  | .xml => NEXTBUS_XML_FEED_URL

/-- Request URL built by _perform_request: the base URL for the output
format, a question mark, and the urlencoded parameters. -/
def requestUrl (fmt : ReturnFormat) (params : List (String × String)) : String :=
  baseUrl fmt ++ "?" ++ urlencode params

/-- Request headers built by _perform_request: the Accept-Encoding header is
present exactly when use_compression is set. -/
def requestHeaders (use_compression : Bool) : List (String × String) :=
  if use_compression then [("Accept-Encoding", "gzip, deflate")] else []

/-- The _perform_request method of NextBusClient in client.py. The transport
call urllib.request.urlopen is modelled by the fetch argument, taking the
request URL and headers, and json.loads by the jsonLoads argument; in the
source the try block converts an HTTPError from the transport into a
NextBusHTTPError chaining it, and a JSONDecodeError from json.loads into a
NextBusFormatError chaining it. -/
def NextBusClient.perform_request {J : Type} (c : NextBusClient)
    (params : List (String × String))
    (fetch : String → List (String × String) → FetchResult)
    (jsonLoads : String → Except JsonDecodeError J) :
    Except NextBusError (PerformOutput J) :=
  match fetch (requestUrl c.output_format params) (requestHeaders c.use_compression) with
  | .httpError e => Except.error (.httpErr "Error from the NextBus API" e)
  | .success body =>
    match c.output_format with
    | .json =>
      match jsonLoads body with
      | .error e => Except.error (.formatErr "Failed to parse JSON from request" e)
      | .ok v => Except.ok (.jsonResp v)
    | .xml => Except.ok (.xmlResp body)

/-- Direction information attached to a prediction value, following the
PredictionDirection shape of models.py. -/
structure PredictionDirection where
  id : String
  name : String
  destinationName : String
  deriving DecidableEq

/-- One prediction value, following the PredictionValue shape of models.py,
reduced to the fields the modelled post-filter and the claims read; the
remaining fields of models.py do not affect the filtering. -/
structure PredictionValue where
  timestamp : Int
  minutes : Int
  direction : PredictionDirection
  deriving DecidableEq

/-- Route information attached to a prediction entry, following the
PredictionRouteInfo shape of models.py, reduced to the fields read by the
modelled post-filter. -/
structure PredictionRouteInfo where
  id : String
  title : String
  deriving DecidableEq

/-- Stop information attached to a prediction entry, following the
PredictionStopInfo shape of models.py, reduced to the fields read by the
modelled post-filter. -/
structure PredictionStopInfo where
  id : String
  name : String
  deriving DecidableEq

/-- One prediction entry of the server payload, following the StopPrediction
shape of models.py. -/
structure StopPrediction where
  route : PredictionRouteInfo
  stop : PredictionStopInfo
  values : List PredictionValue
  deriving DecidableEq

/-- Modelled from the spec: the predictions_for_stop post-filter of the JSON
client, whose implementing module is not among the sources here, only its
models, acceptance tests and callers. Following the corrective filtering
rule of the spec: when a route id is supplied, the client discards any
returned prediction entry whose stop id or route id does not exactly match
the request; when a direction id is also supplied, it further discards,
within the remaining entries, any individual prediction value whose
direction id does not match, a filter on the values list inside each
surviving entry, not on entire entries; when no route id is supplied, the
raw result set is returned as provided by the server. -/
def predictionsForStop (payload : List StopPrediction) (stop_id : String)
    (route_id : Option String) (direction_id : Option String) :
    List StopPrediction :=
  match route_id with
  | none => payload
  | some r =>
    match direction_id with
    | none => payload.filter (fun p => p.stop.id == stop_id && p.route.id == r)
    | some d =>
      (payload.filter (fun p => p.stop.id == stop_id && p.route.id == r)).map
        (fun p => { p with values := p.values.filter (fun v => v.direction.id == d) })

/-- Modelled from the spec: the rate limit snapshot the JSON client keeps,
recorded after every request from the three rate limit response headers. -/
structure RateLimitState where
  rate_limit : Int
  rate_limit_remaining : Int
  rate_limit_reset : Int
  deriving DecidableEq

/-- Modelled from the spec: reading the three rate limit headers of a
response, each defaulting to 0 when the header is absent; numeric header
values are modelled already parsed to integers. -/
def readRateLimits (headers : List (String × Int)) : RateLimitState :=
  { rate_limit := (headers.lookup "X-RateLimit-Limit").getD 0
    rate_limit_remaining := (headers.lookup "X-RateLimit-Remaining").getD 0
    rate_limit_reset := (headers.lookup "X-RateLimit-Reset").getD 0 }

/-- Modelled from the spec: the rate_limit_percent property, derived on read
as remaining over limit times 100, defined as 0 when the limit is 0; Python
float division is modelled with rational numbers. -/
def RateLimitState.rate_limit_percent (st : RateLimitState) : Rat :=
  if st.rate_limit = 0 then 0
  else (st.rate_limit_remaining : Rat) / (st.rate_limit : Rat) * 100

/-- Sample inbound direction for concrete payloads. -/
def dirIB : PredictionDirection :=
  { id := "IB", name := "Inbound", destinationName := "Downtown" }

/-- Sample outbound direction for concrete payloads. -/
def dirOB : PredictionDirection :=
  { id := "OB", name := "Outbound", destinationName := "Zoo" }

/-- Sample inbound prediction value. -/
def valIB : PredictionValue :=
  { timestamp := 1700000000, minutes := 3, direction := dirIB }

/-- Sample outbound prediction value. -/
def valOB : PredictionValue :=
  { timestamp := 1700000300, minutes := 8, direction := dirOB }

/-- Sample payload entry for route F at stop 4513. -/
def entryF4513 : StopPrediction :=
  { route := { id := "F", title := "F Market" },
    stop := { id := "4513", name := "Church St and Market St" },
    values := [valIB, valOB] }

/-- Sample payload entry for route J at stop 4513. -/
def entryJ4513 : StopPrediction :=
  { route := { id := "J", title := "J Church" },
    stop := { id := "4513", name := "Church St and Market St" },
    values := [valIB] }

/-- Sample payload entry for route F at stop 9999. -/
def entryF9999 : StopPrediction :=
  { route := { id := "F", title := "F Market" },
    stop := { id := "9999", name := "Elsewhere" },
    values := [valOB] }

/-- Sample payload entry for route J at stop 9999. -/
def entryJ9999 : StopPrediction :=
  { route := { id := "J", title := "J Church" },
    stop := { id := "9999", name := "Elsewhere" },
    values := [valIB, valOB] }

/-- Sample server payload covering stops 4513 and 9999 on routes F and J. -/
def samplePayload : List StopPrediction :=
  [entryF4513, entryJ4513, entryF9999, entryJ9999]

theorem getAgency_arg (c : NextBusClient) (s : String) (h : s ≠ "") :
    c.getAgencyOf (some s) = Except.ok s := by
  simp [NextBusClient.getAgencyOf, pyOrStr, strTruthy, h]

theorem getAgency_inst (c : NextBusClient) (t : String) (h : c.agency = some t) :
    c.getAgencyOf none = Except.ok t := by
  simp [NextBusClient.getAgencyOf, pyOrStr, strTruthy, h]

theorem getAgency_absent (c : NextBusClient) (h : c.agency = none) :
    c.getAgencyOf none = Except.error "\"agency\" is required." := by
  simp [NextBusClient.getAgencyOf, pyOrStr, strTruthy, h]

/-- C4: for every route tag r and stop tag s, string or integer, the str()
serialization of RouteStop(r, s) is r, then a pipe, then str(s); in
particular RouteStop of F and 4513 serializes to the literal F pipe 4513. -/
theorem routeStop_serialization :
    (∀ (r : String) (s : StrOrInt),
        (RouteStop.mk r s).toStr = r ++ "|" ++ s.pyStr)
    ∧ (RouteStop.mk "F" (StrOrInt.str "4513")).toStr = "F|4513" :=
  ⟨fun _ _ => rfl, rfl⟩

/-- C3: for every operation taking an agency argument, a truthy per-call
agency argument is the one used in the a parameter, a None argument falls
back to the instance default, and when both are absent the operation raises
ValueError with the message that agency is required; the ops here return the
parameters they would hand to _perform_request, so an error result means no
parameters are built and no HTTP request is issued. -/
theorem agency_resolution :
    (∀ (c : NextBusClient) (s : String), s ≠ "" →
        c.getAgencyOf (some s) = Except.ok s)
  ∧ (∀ (c : NextBusClient) (t : String), c.agency = some t →
        c.getAgencyOf none = Except.ok t)
  ∧ (∀ (c : NextBusClient), c.agency = none →
        c.getAgencyOf none = Except.error "\"agency\" is required.")
  ∧ (∀ (c : NextBusClient) (rts : List String) (s : String), s ≠ "" →
        c.get_messages rts (some s) =
          Except.ok [("command", "messages"), ("r", pyJoin "&r=" rts), ("a", s)])
  ∧ (∀ (c : NextBusClient) (rts : List String) (t : String), c.agency = some t →
        c.get_messages rts none =
          Except.ok [("command", "messages"), ("r", pyJoin "&r=" rts), ("a", t)])
  ∧ (∀ (fmt : ReturnFormat) (comp : Bool) (rts : List String),
        (NextBusClient.mk fmt none comp).get_messages rts none =
          Except.error "\"agency\" is required.")
  ∧ (∀ (c : NextBusClient) (s : String), s ≠ "" →
        c.get_route_list (some s) = Except.ok [("command", "routeList"), ("a", s)])
  ∧ (∀ (c : NextBusClient) (t : String), c.agency = some t →
        c.get_route_list none = Except.ok [("command", "routeList"), ("a", t)])
  ∧ (∀ (fmt : ReturnFormat) (comp : Bool),
        (NextBusClient.mk fmt none comp).get_route_list none =
          Except.error "\"agency\" is required.")
  ∧ (∀ (c : NextBusClient) (rt : Option String) (s : String), s ≠ "" →
        c.get_route_config rt (some s) =
          Except.ok (match rt with
            | none => [("command", "routeConfig"), ("a", s)]
            | some r => [("command", "routeConfig"), ("a", s)] ++ [("r", r)]))
  ∧ (∀ (c : NextBusClient) (rt : Option String) (t : String), c.agency = some t →
        c.get_route_config rt none =
          Except.ok (match rt with
            | none => [("command", "routeConfig"), ("a", t)]
            | some r => [("command", "routeConfig"), ("a", t)] ++ [("r", r)]))
  ∧ (∀ (fmt : ReturnFormat) (comp : Bool) (rt : Option String),
        (NextBusClient.mk fmt none comp).get_route_config rt none =
          Except.error "\"agency\" is required.")
  ∧ (∀ (c : NextBusClient) (st : StrOrInt) (rt : String) (s : String), s ≠ "" →
        c.get_predictions st rt (some s) =
          Except.ok [("command", "predictions"), ("a", s), ("s", st.pyStr), ("r", rt)])
  ∧ (∀ (c : NextBusClient) (st : StrOrInt) (rt : String) (t : String), c.agency = some t →
        c.get_predictions st rt none =
          Except.ok [("command", "predictions"), ("a", t), ("s", st.pyStr), ("r", rt)])
  ∧ (∀ (fmt : ReturnFormat) (comp : Bool) (st : StrOrInt) (rt : String),
        (NextBusClient.mk fmt none comp).get_predictions st rt none =
          Except.error "\"agency\" is required.")
  ∧ (∀ (c : NextBusClient) (rs : List RouteStop) (s : String), s ≠ "" →
        c.get_predictions_for_multi_stops rs (some s) =
          Except.ok [("command", "predictionsForMultiStops"),
            ("stops", pyJoin "&stops=" (rs.map RouteStop.toStr)), ("a", s)])
  ∧ (∀ (c : NextBusClient) (rs : List RouteStop) (t : String), c.agency = some t →
        c.get_predictions_for_multi_stops rs none =
          Except.ok [("command", "predictionsForMultiStops"),
            ("stops", pyJoin "&stops=" (rs.map RouteStop.toStr)), ("a", t)])
  ∧ (∀ (fmt : ReturnFormat) (comp : Bool) (rs : List RouteStop),
        (NextBusClient.mk fmt none comp).get_predictions_for_multi_stops rs none =
          Except.error "\"agency\" is required.")
  ∧ (∀ (c : NextBusClient) (rt : String) (s : String), s ≠ "" →
        c.get_schedule rt (some s) =
          Except.ok [("command", "schedule"), ("a", s), ("r", rt)])
  ∧ (∀ (c : NextBusClient) (rt : String) (t : String), c.agency = some t →
        c.get_schedule rt none =
          Except.ok [("command", "schedule"), ("a", t), ("r", rt)])
  ∧ (∀ (fmt : ReturnFormat) (comp : Bool) (rt : String),
        (NextBusClient.mk fmt none comp).get_schedule rt none =
          Except.error "\"agency\" is required.")
  ∧ (∀ (c : NextBusClient) (rt : String) (ms : Int) (s : String), s ≠ "" →
        c.get_vehicle_locations rt ms (some s) =
          Except.ok [("command", "vehicleLocations"), ("a", s), ("r", rt),
            ("t", toString ms)])
  ∧ (∀ (c : NextBusClient) (rt : String) (ms : Int) (t : String), c.agency = some t →
        c.get_vehicle_locations rt ms none =
          Except.ok [("command", "vehicleLocations"), ("a", t), ("r", rt),
            ("t", toString ms)])
  ∧ (∀ (fmt : ReturnFormat) (comp : Bool) (rt : String) (ms : Int),
        (NextBusClient.mk fmt none comp).get_vehicle_locations rt ms none =
          Except.error "\"agency\" is required.") := by
  refine ⟨getAgency_arg, getAgency_inst, getAgency_absent, ?_, ?_, ?_, ?_, ?_, ?_,
    ?_, ?_, ?_, ?_, ?_, ?_, ?_, ?_, ?_, ?_, ?_, ?_, ?_, ?_, ?_⟩ <;>
    intros <;>
    simp_all [NextBusClient.get_messages, NextBusClient.get_route_list,
      NextBusClient.get_route_config, NextBusClient.get_predictions,
      NextBusClient.get_predictions_for_multi_stops, NextBusClient.get_schedule,
      NextBusClient.get_vehicle_locations, getAgency_arg, getAgency_inst,
      getAgency_absent, NextBusClient.getAgencyOf, pyOrStr, strTruthy, Except.map] <;>
    try (split <;> rfl)

/-- Witness for C3: concrete agency resolution, fallback, and the required
error on a client with no default agency including a concrete operation. -/
theorem agency_resolution_witness :
    NextBusClient.getAgencyOf ⟨ReturnFormat.json, some "bart", true⟩ (some "sfmta")
      = Except.ok "sfmta"
  ∧ NextBusClient.getAgencyOf ⟨ReturnFormat.json, some "bart", true⟩ none
      = Except.ok "bart"
  ∧ NextBusClient.getAgencyOf ⟨ReturnFormat.json, none, true⟩ none
      = Except.error "\"agency\" is required."
  ∧ NextBusClient.get_route_list ⟨ReturnFormat.json, none, true⟩ none
      = Except.error "\"agency\" is required." :=
  ⟨agency_resolution.1 ⟨ReturnFormat.json, some "bart", true⟩ "sfmta" (by decide),
   agency_resolution.2.1 ⟨ReturnFormat.json, some "bart", true⟩ "bart" rfl,
   agency_resolution.2.2.1 ⟨ReturnFormat.json, none, true⟩ rfl,
   agency_resolution.2.2.2.2.2.2.2.2.1 ReturnFormat.json true⟩

/-- Counterexample for C10: with the per-call agency equal to the empty
string and the instance default also the empty string, the resolution does
not raise ValueError, it returns the empty string. -/
theorem empty_agency_counterexample :
    NextBusClient.getAgencyOf ⟨ReturnFormat.json, some "", true⟩ (some "")
      = Except.ok ""
  ∧ ¬ NextBusClient.getAgencyOf ⟨ReturnFormat.json, some "", true⟩ (some "")
      = Except.error "\"agency\" is required." := by
  refine ⟨rfl, fun h => ?_⟩
  simp [NextBusClient.getAgencyOf, pyOrStr, strTruthy] at h

/-- C10 amended: an empty per-call agency is never itself used, the client
substitutes the instance default; the ValueError is raised exactly when that
default is None, while an empty string default is returned as is. -/
theorem empty_agency_falls_back :
    (∀ (c : NextBusClient), c.getAgencyOf (some "") =
      (match c.agency with
       | none => Except.error "\"agency\" is required."
       | some t => Except.ok t))
  ∧ (∀ (fmt : ReturnFormat) (comp : Bool) (t : String),
      (NextBusClient.mk fmt (some t) comp).get_route_list (some "") =
        Except.ok [("command", "routeList"), ("a", t)])
  ∧ (∀ (fmt : ReturnFormat) (comp : Bool),
      (NextBusClient.mk fmt none comp).get_route_list (some "") =
        Except.error "\"agency\" is required.") := by
  refine ⟨fun c => ?_, fun fmt comp t => rfl, fun fmt comp => rfl⟩
  cases h : c.agency <;> simp [NextBusClient.getAgencyOf, pyOrStr, strTruthy, h]

/-- C9 theorem: every successful get_predictions call carries the required
route tag under the r key, so the request is always scoped to a route; in
the source the route_tag parameter is a required positional argument and the
call cannot be made with the route omitted. -/
theorem get_predictions_always_scoped :
    ∀ (c : NextBusClient) (st : StrOrInt) (rt : String) (ag : Option String)
      (ps : List (String × String)),
      c.get_predictions st rt ag = Except.ok ps → ps.lookup "r" = some rt := by
  intro c st rt ag ps h
  unfold NextBusClient.get_predictions at h
  cases hg : c.getAgencyOf ag with
  | error e => rw [hg] at h; simp [Except.map] at h
  | ok a =>
    rw [hg] at h
    simp only [Except.map, Except.ok.injEq] at h
    subst h
    simp [List.lookup]

/-- Witness for C9 theorem: a concrete successful call whose parameters
contain the route under the r key. -/
theorem get_predictions_always_scoped_witness :
    ([("command", "predictions"), ("a", "sfmta"), ("s", "4513"), ("r", "F")]
      : List (String × String)).lookup "r" = some "F" :=
  get_predictions_always_scoped ⟨ReturnFormat.json, none, true⟩
    (StrOrInt.str "4513") "F" (some "sfmta") _ rfl

/-- C8: the rate limit percentage is remaining over limit times 100 when the
limit is nonzero and 0 when the limit is 0, and a response lacking the rate
limit headers leaves the tracked limit and remaining at 0 with a percentage
of 0. -/
theorem rate_limit_tracking :
    (∀ st : RateLimitState, st.rate_limit ≠ 0 →
        st.rate_limit_percent =
          (st.rate_limit_remaining : Rat) / (st.rate_limit : Rat) * 100)
  ∧ (∀ st : RateLimitState, st.rate_limit = 0 → st.rate_limit_percent = 0)
  ∧ (∀ headers : List (String × Int),
        headers.lookup "X-RateLimit-Limit" = none →
        headers.lookup "X-RateLimit-Remaining" = none →
        (readRateLimits headers).rate_limit = 0
        ∧ (readRateLimits headers).rate_limit_remaining = 0
        ∧ (readRateLimits headers).rate_limit_percent = 0) := by
  refine ⟨fun st h => ?_, fun st h => ?_, fun headers h1 h2 => ?_⟩
  · simp [RateLimitState.rate_limit_percent, h]
  · simp [RateLimitState.rate_limit_percent, h]
  · refine ⟨?_, ?_, ?_⟩ <;>
      simp [readRateLimits, RateLimitState.rate_limit_percent, h1, h2]

/-- Witness for C8: a concrete nonzero state evaluates to the ratio, and a
concrete response with no rate limit headers leaves zeros and a percentage
of 0. -/
theorem rate_limit_tracking_witness :
    RateLimitState.rate_limit_percent ⟨100, 25, 0⟩ = (25 : Rat) / (100 : Rat) * 100
  ∧ ((readRateLimits [("Content-Length", 42)]).rate_limit = 0
      ∧ (readRateLimits [("Content-Length", 42)]).rate_limit_remaining = 0
      ∧ (readRateLimits [("Content-Length", 42)]).rate_limit_percent = 0) :=
  ⟨rate_limit_tracking.1 ⟨100, 25, 0⟩ (by decide),
   rate_limit_tracking.2.2 [("Content-Length", 42)] (by decide) (by decide)⟩

/-- C1: with a route id supplied and no direction id, the filtered result
contains only payload entries whose stop id and route id equal the request,
every payload entry satisfying both equalities is kept, and the result is a
sublist of the payload, so no other entries are removed and order is
preserved. -/
theorem predictions_route_filter :
    ∀ (payload : List StopPrediction) (stop r : String),
      (∀ p, p ∈ predictionsForStop payload stop (some r) none →
          p.stop.id = stop ∧ p.route.id = r)
    ∧ (∀ p, p ∈ payload → p.stop.id = stop → p.route.id = r →
          p ∈ predictionsForStop payload stop (some r) none)
    ∧ (predictionsForStop payload stop (some r) none).Sublist payload := by
  intro payload stop r
  refine ⟨fun p hp => ?_, fun p hp h1 h2 => ?_, ?_⟩
  · simp [predictionsForStop, List.mem_filter] at hp
    exact hp.2
  · simp [predictionsForStop, List.mem_filter, hp, h1, h2]
  · exact List.filter_sublist payload

/-- Witness for C1: the spec scenario, stop 4513 and route F against a
payload covering stops 4513 and 9999 on routes F and J, yields exactly the
single matching entry, and the theorem applied to it gives the equalities. -/
theorem predictions_route_filter_witness :
    predictionsForStop samplePayload "4513" (some "F") none = [entryF4513]
  ∧ (entryF4513.stop.id = "4513" ∧ entryF4513.route.id = "F")
  ∧ entryF4513 ∈ predictionsForStop samplePayload "4513" (some "F") none := by
  refine ⟨by decide, (predictions_route_filter samplePayload "4513" "F").1
    entryF4513 (by decide), ?_⟩
  exact (predictions_route_filter samplePayload "4513" "F").2.1 entryF4513
    (by decide) (by decide) (by decide)

/-- C2: with both a route id and a direction id supplied, the result is the
route and stop filtered entries with each values list filtered down to the
requested direction; no whole entry is removed by the direction step, the
entry count matches the route filtered result, and every remaining value in
every surviving entry has the requested direction id. -/
theorem predictions_direction_filter :
    ∀ (payload : List StopPrediction) (stop r d : String),
      predictionsForStop payload stop (some r) (some d) =
        (predictionsForStop payload stop (some r) none).map
          (fun p => { p with values := p.values.filter (fun v => v.direction.id == d) })
    ∧ (predictionsForStop payload stop (some r) (some d)).length =
        (predictionsForStop payload stop (some r) none).length
    ∧ (∀ p, p ∈ predictionsForStop payload stop (some r) (some d) →
        ∀ v, v ∈ p.values → v.direction.id = d) := by
  intro payload stop r d
  refine ⟨rfl, by simp [predictionsForStop], fun p hp v hv => ?_⟩
  simp only [predictionsForStop, List.mem_map] at hp
  obtain ⟨q, _, rfl⟩ := hp
  simp only [List.mem_filter] at hv
  simp at hv
  exact hv.2

/-- Witness for C2: the concrete payload filtered to stop 4513, route F and
direction IB keeps the one surviving entry whole while its values list is
cut to the inbound value, whose direction id the theorem recovers. -/
theorem predictions_direction_filter_witness :
    predictionsForStop samplePayload "4513" (some "F") (some "IB") =
      [{ entryF4513 with values := [valIB] }]
  ∧ (predictionsForStop samplePayload "4513" (some "F") (some "IB")).length =
      (predictionsForStop samplePayload "4513" (some "F") none).length
  ∧ valIB.direction.id = "IB" := by
  refine ⟨by decide, (predictions_direction_filter samplePayload "4513" "F" "IB").2.1, ?_⟩
  exact (predictions_direction_filter samplePayload "4513" "F" "IB").2.2
    { entryF4513 with values := [valIB] } (by decide) valIB (by decide)

/-- C5: when the transport raises an HTTPError the request raises a
NextBusHTTPError chaining that error as its cause, and when the output
format is JSON and the body fails to parse the request raises the distinct
NextBusFormatError chaining the decode error; in each case the outcome is
exactly that error, nothing is swallowed. -/
theorem perform_request_error_wrapping :
    ∀ (J : Type) (fmt : ReturnFormat) (ag : Option String) (comp : Bool)
      (ps : List (String × String))
      (fetch : String → List (String × String) → FetchResult)
      (jsonLoads : String → Except JsonDecodeError J)
      (e : HTTPErrorInfo) (body : String) (d : JsonDecodeError),
      (fetch (requestUrl fmt ps) (requestHeaders comp) = FetchResult.httpError e →
        NextBusClient.perform_request ⟨fmt, ag, comp⟩ ps fetch jsonLoads =
          Except.error (NextBusError.httpErr "Error from the NextBus API" e))
    ∧ (fetch (requestUrl ReturnFormat.json ps) (requestHeaders comp) =
          FetchResult.success body →
        jsonLoads body = Except.error d →
        NextBusClient.perform_request ⟨ReturnFormat.json, ag, comp⟩ ps fetch jsonLoads =
          Except.error (NextBusError.formatErr "Failed to parse JSON from request" d)) := by
  intro J fmt ag comp ps fetch jsonLoads e body d
  constructor
  · intro h
    simp [NextBusClient.perform_request, h]
  · intro h1 h2
    simp [NextBusClient.perform_request, h1, h2]

/-- Witness for C5: a concrete transport error is wrapped as the HTTP error,
and a concrete unparseable JSON body is wrapped as the format error. -/
theorem perform_request_error_wrapping_witness :
    NextBusClient.perform_request ⟨ReturnFormat.json, some "sfmta", true⟩ []
      (fun _ _ => FetchResult.httpError ⟨404, "Not Found"⟩)
      (fun _ => Except.ok (0 : Nat)) =
      Except.error (NextBusError.httpErr "Error from the NextBus API" ⟨404, "Not Found"⟩)
  ∧ NextBusClient.perform_request ⟨ReturnFormat.json, some "sfmta", true⟩ []
      (fun _ => fun _ => (FetchResult.success "<html>" : FetchResult))
      (fun _ => (Except.error ⟨"Expecting value", 0⟩ : Except JsonDecodeError Nat)) =
      Except.error (NextBusError.formatErr "Failed to parse JSON from request"
        ⟨"Expecting value", 0⟩) :=
  ⟨(perform_request_error_wrapping Nat ReturnFormat.json (some "sfmta") true []
      (fun _ _ => FetchResult.httpError ⟨404, "Not Found"⟩)
      (fun _ => Except.ok 0) ⟨404, "Not Found"⟩ "" ⟨"", 0⟩).1 rfl,
   (perform_request_error_wrapping Nat ReturnFormat.json (some "sfmta") true []
      (fun _ _ => FetchResult.success "<html>")
      (fun _ => Except.error ⟨"Expecting value", 0⟩)
      ⟨404, "Not Found"⟩ "<html>" ⟨"Expecting value", 0⟩).2 rfl rfl⟩

/-- C7: the output format fixed at construction selects the base URL of
every request, the JSON feed URL for JSON and the XML feed URL for XML, and
also how the body is handled, parsed JSON returned for JSON and the raw body
text returned undecoded for XML. -/
theorem output_format_governs :
    ∀ (J : Type) (ag : Option String) (comp : Bool) (ps : List (String × String))
      (fetch : String → List (String × String) → FetchResult)
      (jsonLoads : String → Except JsonDecodeError J) (body : String) (v : J),
      requestUrl ReturnFormat.json ps = NEXTBUS_JSON_FEED_URL ++ "?" ++ urlencode ps
    ∧ requestUrl ReturnFormat.xml ps = NEXTBUS_XML_FEED_URL ++ "?" ++ urlencode ps
    ∧ (fetch (requestUrl ReturnFormat.json ps) (requestHeaders comp) =
          FetchResult.success body →
        jsonLoads body = Except.ok v →
        NextBusClient.perform_request ⟨ReturnFormat.json, ag, comp⟩ ps fetch jsonLoads =
          Except.ok (PerformOutput.jsonResp v))
    ∧ (fetch (requestUrl ReturnFormat.xml ps) (requestHeaders comp) =
          FetchResult.success body →
        NextBusClient.perform_request ⟨ReturnFormat.xml, ag, comp⟩ ps fetch jsonLoads =
          Except.ok (PerformOutput.xmlResp body)) := by
  intro J ag comp ps fetch jsonLoads body v
  refine ⟨rfl, rfl, fun h1 h2 => ?_, fun h => ?_⟩
  · simp [NextBusClient.perform_request, h1, h2]
  · simp [NextBusClient.perform_request, h]

/-- Witness for C7: a concrete JSON mode call parses the body and a concrete
XML mode call returns the raw text. -/
theorem output_format_governs_witness :
    NextBusClient.perform_request ⟨ReturnFormat.json, some "sfmta", false⟩
      [("command", "agencyList")]
      (fun _ _ => FetchResult.success "[]")
      (fun _ => (Except.ok 7 : Except JsonDecodeError Nat)) =
      Except.ok (PerformOutput.jsonResp 7)
  ∧ NextBusClient.perform_request ⟨ReturnFormat.xml, some "sfmta", false⟩
      [("command", "agencyList")]
      (fun _ _ => FetchResult.success "<body/>")
      (fun _ => (Except.ok 7 : Except JsonDecodeError Nat)) =
      Except.ok (PerformOutput.xmlResp "<body/>") :=
  ⟨(output_format_governs Nat (some "sfmta") false [("command", "agencyList")]
      (fun _ _ => FetchResult.success "[]") (fun _ => Except.ok 7) "[]" 7).2.2.1 rfl rfl,
   (output_format_governs Nat (some "sfmta") false [("command", "agencyList")]
      (fun _ _ => FetchResult.success "<body/>") (fun _ => Except.ok 7) "<body/>" 7).2.2.2 rfl⟩

theorem quoteChars_append (a b : List Char) :
    quoteChars (a ++ b) = quoteChars a ++ quoteChars b := by
  induction a with
  | nil =>
    show quoteChars b = "" ++ quoteChars b
    exact (String.empty_append _).symm
  | cons c cs ih =>
    show quotePlusChar c ++ quoteChars (cs ++ b) = _
    rw [ih, quoteChars, String.append_assoc]

theorem quotePlus_append (s t : String) :
    quotePlus (s ++ t) = quotePlus s ++ quotePlus t := by
  rw [quotePlus, String.data_append, quoteChars_append]
  rfl

theorem quotePlus_pyJoin : ∀ (sep : String) (l : List String),
    quotePlus (pyJoin sep l) = pyJoin (quotePlus sep) (l.map quotePlus)
  | _, [] => rfl
  | _, [_] => rfl
  | sep, x :: y :: ys => by
    show quotePlus ((x ++ sep) ++ pyJoin sep (y :: ys)) = _
    rw [quotePlus_append, quotePlus_append, quotePlus_pyJoin sep (y :: ys)]
    rfl

theorem pre_pyJoin_concatAll : ∀ (pre sep x : String) (xs : List String),
    pre ++ pyJoin sep (x :: xs) =
      concatAll ((pre ++ x) :: xs.map (fun z => sep ++ z))
  | _, _, _, [] => rfl
  | pre, sep, x, y :: ys => by
    show pre ++ ((x ++ sep) ++ pyJoin sep (y :: ys)) = _
    rw [← String.append_assoc, ← String.append_assoc,
      String.append_assoc (pre ++ x), pre_pyJoin_concatAll sep sep y ys]
    rfl

/-- C6: for a non-empty list of RouteStop pairs, the stops parameter is the
join of the pair serializations with the ampersand-stops-equals separator,
and since the urlencoding leaves ampersand and equals unescaped, the query
string carries the stops key exactly once per pair in order, the first as
stops equals and each later one as ampersand stops equals, each occurrence
followed by the percent encoded serialization of its pair. -/
theorem multi_stops_query_repeats_key :
    ∀ (c : NextBusClient) (x : RouteStop) (rs : List RouteStop) (s : String),
      s ≠ "" →
      (c.get_predictions_for_multi_stops (x :: rs) (some s) =
        Except.ok [("command", "predictionsForMultiStops"),
          ("stops", pyJoin "&stops=" ((x :: rs).map RouteStop.toStr)), ("a", s)])
    ∧ (urlencode [("command", "predictionsForMultiStops"),
          ("stops", pyJoin "&stops=" ((x :: rs).map RouteStop.toStr)), ("a", s)] =
        ("command=predictionsForMultiStops&" ++
          concatAll (("stops=" ++ quotePlus x.toStr) ::
            rs.map (fun r => "&stops=" ++ quotePlus r.toStr))) ++
          ("&a=" ++ quotePlus s))
    ∧ quotePlusChar '&' = "&" ∧ quotePlusChar '=' = "=" := by
  intro c x rs s hs
  refine ⟨?_, ?_, rfl, rfl⟩
  · rw [NextBusClient.get_predictions_for_multi_stops, getAgency_arg c s hs]
    rfl
  · calc
      urlencode [("command", "predictionsForMultiStops"),
          ("stops", pyJoin "&stops=" ((x :: rs).map RouteStop.toStr)), ("a", s)]
        = "command=predictionsForMultiStops&" ++
            ((("stops=" ++ quotePlus (pyJoin "&stops=" ((x :: rs).map RouteStop.toStr)))
              ++ "&") ++ ("a=" ++ quotePlus s)) := rfl
      _ = "command=predictionsForMultiStops&" ++
            (("stops=" ++ quotePlus (pyJoin "&stops=" ((x :: rs).map RouteStop.toStr)))
              ++ ("&a=" ++ quotePlus s)) := by
          rw [String.append_assoc]; rfl
      _ = "command=predictionsForMultiStops&" ++
            (("stops=" ++ pyJoin "&stops="
                ((x :: rs).map RouteStop.toStr |>.map quotePlus))
              ++ ("&a=" ++ quotePlus s)) := by
          rw [quotePlus_pyJoin]; rfl
      _ = "command=predictionsForMultiStops&" ++
            ((concatAll (("stops=" ++ quotePlus x.toStr) ::
                rs.map (fun r => "&stops=" ++ quotePlus r.toStr)))
              ++ ("&a=" ++ quotePlus s)) := by
          rw [List.map_cons, List.map_cons, pre_pyJoin_concatAll, List.map_map,
            List.map_map]
          rfl
      _ = ("command=predictionsForMultiStops&" ++
            concatAll (("stops=" ++ quotePlus x.toStr) ::
              rs.map (fun r => "&stops=" ++ quotePlus r.toStr))) ++
            ("&a=" ++ quotePlus s) := by
          rw [String.append_assoc]

/-- Witness for C6: two concrete pairs produce the stops parameter joined
with the ampersand-stops-equals separator, and the resulting query string
carries the stops key once per pair in order, each with the percent encoded
serialization of its pair, with ampersand and equals left unescaped. -/
theorem multi_stops_query_repeats_key_witness :
    NextBusClient.get_predictions_for_multi_stops ⟨ReturnFormat.json, none, true⟩
      [⟨"F", StrOrInt.str "4513"⟩, ⟨"J", StrOrInt.str "9999"⟩] (some "sfmta") =
      Except.ok [("command", "predictionsForMultiStops"),
        ("stops", "F|4513&stops=J|9999"), ("a", "sfmta")]
  ∧ urlencode [("command", "predictionsForMultiStops"),
        ("stops", "F|4513&stops=J|9999"), ("a", "sfmta")] =
      "command=predictionsForMultiStops&stops=F%7C4513&stops=J%7C9999&a=sfmta" :=
  ⟨(multi_stops_query_repeats_key ⟨ReturnFormat.json, none, true⟩
      ⟨"F", StrOrInt.str "4513"⟩ [⟨"J", StrOrInt.str "9999"⟩] "sfmta"
      (by decide)).1,
   (multi_stops_query_repeats_key ⟨ReturnFormat.json, none, true⟩
      ⟨"F", StrOrInt.str "4513"⟩ [⟨"J", StrOrInt.str "9999"⟩] "sfmta"
      (by decide)).2.1⟩

end PyNextbus
